import Mathlib

/-!
Shallow embedding of the cat/dog SVM classification notebook
(`SVM_ImageClassification.ipynb`) and proofs about it.

The notebook's functions are modelled as pure Lean functions:
  * the filesystem seen by `load_images_and_features` is a list of `Entry`
    (directory name, is-directory flag, contained file names);
  * image decoding (`cv2.imread`) is an abstract partial function
    `String → Option Image` (OpenCV's `imread` returns an empty result,
    i.e. `None` in Python, when the path is not a readable image, and
    never raises);
  * the HOG feature vector of an image is abstract (`String → α` for the
    loader, `Image → α` for `process_image`), since no claim depends on
    the numeric content of the features;
  * pandas data frames are lists of rows; printing to stdout is modelled
    by returning the printed value; writing a file is modelled as updating
    a map `String → Option String` from paths to file contents.
-/

namespace CatDog

/-- A directory entry of the root folder passed to the loader:
its name, whether `os.path.isdir` holds for it, and (when it is a
directory) the file names `os.listdir` yields inside it. -/
structure Entry where
  name : String
  isDir : Bool
  files : List String
deriving DecidableEq, Repr

/-- Python's `str.startswith`, by structural recursion on the character
lists of the two strings. -/
def strStartsWith (s p : String) : Bool :=
  List.isPrefixOf p.data s.data

/-- Python's `str.endswith`, by structural recursion on the character
lists of the two strings. -/
def strEndsWith (s p : String) : Bool :=
  List.isSuffixOf p.data s.data

/-- `os.path.join` for POSIX paths, as the notebook uses it. -/
def joinPath (a b : String) : String :=
  if strStartsWith b "/" then b
  else if a = "" then b
  else if strEndsWith a "/" then a ++ b
  else a ++ "/" ++ b

/-- The Python substring test `"cat" in label`. -/
def catIn (label : String) : Bool :=
  decide ("cat".data <:+: label.data)

/-- Errors raised by the OpenCV calls in `process_image`.
`cvAssertion fn msg` is a `cv2.error` raised by an unchecked assertion in
OpenCV function `fn`; `decodeError` is a dedicated image-decoding failure
(the `DecodeError` of the specification's error taxonomy), which OpenCV
itself never raises from this code path. -/
inductive PyError where
  | cvAssertion (fn : String) (msg : String)
  | decodeError
deriving DecidableEq, Repr

/-- `process_image`: `cv2.imread` the path, convert to grayscale, resize,
and extract HOG features.  `cv2.imread` returns `None` (here `none`) when
the path is not a readable image, without raising; `cv2.cvtColor` then
raises the `cv2.error` assertion `!_src.empty()` on that empty input.
On success the grayscale/resize/HOG pipeline runs. -/
def process_image {Image α : Type} (imread : String → Option Image)
    (cvtColor resize : Image → Image) (hogFeat : Image → α)
    (img_path : String) : Except PyError α :=
  match imread img_path with
  | none => .error (.cvAssertion "cvtColor" "!_src.empty()")
  | some img => .ok (hogFeat (resize (cvtColor img)))

/-- The loop body of `process_directory`: iterate over the listed file
names, skip names starting with `'.'`, and for each kept file record the
extracted features of `os.path.join directory filename` and the filename,
in listing order. -/
def processFiles {α : Type} (extract : String → α) (directory : String) :
    List String → List α × List String
  | [] => ([], [])
  | f :: rest =>
    if strStartsWith f "." then processFiles extract directory rest
    else
      let r := processFiles extract directory rest
      (extract (joinPath directory f) :: r.1, f :: r.2)

/-- `process_directory(directory, label_code)`: returns
`(images, [label_code] * len(images), filenames)` where `images` and
`filenames` come from the loop over the directory listing.  The features
of a file are `extract` of its joined path. -/
def process_directory {α : Type} (extract : String → α) (directory : String)
    (label_code : ℤ) (listing : List String) : List α × List ℤ × List String :=
  let r := processFiles extract directory listing
  (r.1, List.replicate r.1.length label_code, r.2)

/-- `load_images_and_features(folder)`: for each entry of the folder, skip
it unless it is a directory; otherwise label it `0` if `"cat"` occurs in
its name and `1` otherwise, process it with `process_directory`, and
extend the three accumulated sequences. -/
def load_images_and_features {α : Type} (extract : String → α) (folder : String) :
    List Entry → List α × List ℤ × List String
  | [] => ([], [], [])
  | e :: rest =>
    let r := load_images_and_features extract folder rest
    if e.isDir then
      let label_code : ℤ := if catIn e.name then 0 else 1
      let p := process_directory extract (joinPath folder e.name) label_code e.files
      (p.1 ++ r.1, p.2.1 ++ r.2.1, p.2.2 ++ r.2.2)
    else r

/-- `map_label`: `'cat' if numeric_label == 0 else 'dog'`. -/
def map_label (numeric_label : ℤ) : String :=
  if numeric_label = 0 then "cat" else "dog"

/-- One row of the results data frame: columns
`Filename`, `Prediction`, `Actual`, `Correct?`. -/
structure Row where
  filename : String
  prediction : String
  actual : String
  correct : Bool
deriving DecidableEq, Repr

/-- `pd.DataFrame` built from four positionally aligned columns. -/
def mkRows : List String → List String → List String → List Bool → List Row
  | f :: fs, p :: ps, a :: as, c :: cs => ⟨f, p, a, c⟩ :: mkRows fs ps as cs
  | _, _, _, _ => []

/-- `create_results_df(model, X_test, y_test, test_filenames)`: predict a
label for each test row (an SVM's `predict` is row-wise, modelled by
mapping `predict` over the rows), map predictions and actuals to strings,
and zip the columns `Filename`, `Prediction`, `Actual`, and
`Correct?` (`y_pred == y_test`, an elementwise integer comparison) into a
data frame. -/
def create_results_df {α : Type} (predict : α → ℤ) (X_test : List α)
    (y_test : List ℤ) (test_filenames : List String) : List Row :=
  let y_pred := X_test.map predict
  let mapped_predictions := y_pred.map map_label
  let mapped_actuals := y_test.map map_label
  mkRows test_filenames mapped_predictions mapped_actuals
    (List.zipWith (fun a b => decide (a = b)) y_pred y_test)

/-- `sklearn.metrics.accuracy_score(y_true, y_pred)`: the mean of the
elementwise equality vector, i.e. the number of positions where the two
sequences agree divided by their length. -/
def accuracy_score (y_true y_pred : List ℤ) : ℚ :=
  (((List.zipWith (fun a b => decide (a = b)) y_true y_pred).count true : ℚ)) /
    (y_true.length : ℚ)

/-- `evaluate_model(model, X_test, y_test, test_filenames)`: builds the
same data frame as `create_results_df`, prints it together with
`accuracy_score(y_test, y_pred)` and the classification report, and
returns the frame.  The printed accuracy is modelled as the second
component of the result. -/
def evaluate_model {α : Type} (predict : α → ℤ) (X_test : List α)
    (y_test : List ℤ) (test_filenames : List String) : List Row × ℚ :=
  let y_pred := X_test.map predict
  let mapped_predictions := y_pred.map map_label
  let mapped_actuals := y_test.map map_label
  let results_df := mkRows test_filenames mapped_predictions mapped_actuals
    (List.zipWith (fun a b => decide (a = b)) y_pred y_test)
  (results_df, accuracy_score y_test y_pred)

/-- A CSV field as pandas `to_csv` writes it (minimal quoting): quoted,
with inner quotes doubled, exactly when the value contains a comma, a
quote, or a line break. -/
def csvField (s : String) : String :=
  if s.data.any (fun c => c = ',' || c = '"' || c = '\n' || c = '\r') then
    "\"" ++ String.mk (s.data.flatMap (fun c => if c = '"' then ['"', '"'] else [c])) ++ "\""
  else s

/-- One serialized data row of the results frame; booleans print as
`True` / `False` as pandas writes Python booleans. -/
def rowLine (r : Row) : String :=
  csvField r.filename ++ "," ++ csvField r.prediction ++ "," ++ csvField r.actual ++ ","
    ++ (if r.correct then "True" else "False") ++ "\n"

/-- The CSV header naming the four columns of the results frame. -/
def csvHeader : String := "Filename,Prediction,Actual,Correct?\n"

/-- `df.to_csv(f, index=False)`: the header row followed by one data row
per sample in frame order, with no index column. -/
def to_csv (df : List Row) : String :=
  csvHeader ++ String.join (df.map rowLine)

/-- `export_to_csv(df, filename, header_comment)`: opens `filename` in
mode `'w'` (truncating any existing file), writes `# <comment>\n`, then
appends the CSV serialization of the frame.  The filesystem is a map from
paths to contents; the write replaces whatever was at `filename`. -/
def export_to_csv (df : List Row) (filename header_comment : String)
    (fs : String → Option String) : String → Option String :=
  fun p =>
    if p = filename then some ("# " ++ header_comment ++ "\n" ++ to_csv df)
    else fs p

/-- Specification-side enumeration of the samples the loader visits:
for each directory entry, in order, the non-hidden files of that entry
paired with the entry's name. -/
def sampleList (entries : List Entry) : List (String × String) :=
  (entries.filter (fun e => e.isDir)).flatMap
    (fun e => (e.files.filter (fun f => !strStartsWith f ".")).map (fun f => (e.name, f)))

/-- Specification-side label of a class bucket: `0` when `"cat"` occurs in
the bucket name, `1` otherwise. -/
def bucketLabel (name : String) : ℤ :=
  if catIn name then 0 else 1

/-- A decoder under which no path is a readable image: `cv2.imread`
yields `None` everywhere.  Used to evaluate `process_image` at
concrete unreadable paths. -/
def imreadNone : String → Option Unit := fun _ => none

/-- Unfolding lemma: the samples of a cons are the non-hidden files of
the head entry (when it is a directory) followed by the samples of the
tail. -/
theorem sampleList_cons (e : Entry) (rest : List Entry) :
    sampleList (e :: rest) =
      (if e.isDir then
          (e.files.filter (fun f => !strStartsWith f ".")).map (fun f => (e.name, f))
        else []) ++ sampleList rest := by
  cases hd : e.isDir <;> simp [sampleList, List.filter_cons, hd]

/-- The loop of `process_directory` keeps exactly the non-hidden files,
extracting features from their joined paths, in listing order. -/
theorem processFiles_spec {α : Type} (extract : String → α) (directory : String)
    (files : List String) :
    processFiles extract directory files =
      ((files.filter (fun f => !strStartsWith f ".")).map
          (fun f => extract (joinPath directory f)),
        files.filter (fun f => !strStartsWith f ".")) := by
  induction files with
  | nil => rfl
  | cons f rest ih =>
    cases hf : strStartsWith f "." with
    | true => simp [processFiles, hf, List.filter_cons, ih]
    | false => simp [processFiles, hf, List.filter_cons, ih]

/-- Characterization of `process_directory` on the non-hidden files. -/
theorem process_directory_spec {α : Type} (extract : String → α) (directory : String)
    (label_code : ℤ) (files : List String) :
    process_directory extract directory label_code files =
      ((files.filter (fun f => !strStartsWith f ".")).map
          (fun f => extract (joinPath directory f)),
        List.replicate (files.filter (fun f => !strStartsWith f ".")).length label_code,
        files.filter (fun f => !strStartsWith f ".")) := by
  simp [process_directory, processFiles_spec]

/-- Characterization of the loader: all three returned sequences are
maps over the single sample enumeration `sampleList`, so they are
aligned pointwise and of equal length. -/
theorem load_spec {α : Type} (extract : String → α) (folder : String)
    (entries : List Entry) :
    load_images_and_features extract folder entries =
      ((sampleList entries).map (fun s => extract (joinPath (joinPath folder s.1) s.2)),
        (sampleList entries).map (fun s => bucketLabel s.1),
        (sampleList entries).map (fun s => s.2)) := by
  induction entries with
  | nil => rfl
  | cons e rest ih =>
    cases hd : e.isDir with
    | false => simp [load_images_and_features, hd, sampleList_cons, ih]
    | true =>
      simp [load_images_and_features, hd, process_directory_spec, sampleList_cons, ih,
        Function.comp_def, bucketLabel]
      exact (List.map_const' _ _).symm

/-- When the four columns have equal lengths, the zipped frame has that
length, its `Correct?` column is the given boolean column, and the number
of rows kept by filtering on `Correct?` is the number of `true` entries
of that column. -/
theorem mkRows_spec (fs ps as : List String) (cs : List Bool)
    (hp : ps.length = fs.length) (ha : as.length = fs.length)
    (hc : cs.length = fs.length) :
    (mkRows fs ps as cs).length = fs.length ∧
    (mkRows fs ps as cs).map (fun r => r.correct) = cs ∧
    ((mkRows fs ps as cs).filter (fun r => r.correct)).length =
      cs.countP (fun b => b) := by
  induction fs generalizing ps as cs with
  | nil =>
    have hps : ps = [] := List.length_eq_zero.mp hp
    have has : as = [] := List.length_eq_zero.mp ha
    have hcs : cs = [] := List.length_eq_zero.mp hc
    subst hps; subst has; subst hcs
    simp [mkRows]
  | cons f fs ih =>
    cases ps with
    | nil => exact absurd hp (by simp)
    | cons p ps =>
      cases as with
      | nil => exact absurd ha (by simp)
      | cons a as =>
        cases cs with
        | nil => exact absurd hc (by simp)
        | cons c cs =>
          have h := ih ps as cs (by simpa using hp) (by simpa using ha)
            (by simpa using hc)
          cases c <;>
            simp [mkRows, List.filter_cons, List.countP_cons, h.1, h.2.1, h.2.2]

/-- Counting `true` in a boolean list is counting by the identity
predicate. -/
theorem count_true_eq_countP (cs : List Bool) :
    cs.count true = cs.countP (fun b => b) := by
  induction cs with
  | nil => rfl
  | cons c cs ih => cases c <;> simp [List.count_cons, List.countP_cons, ih]

/-- The elementwise integer-equality vector is symmetric in its two
arguments. -/
theorem zipWith_decide_eq_comm (xs ys : List ℤ) :
    List.zipWith (fun a b => decide (a = b)) xs ys =
      List.zipWith (fun a b => decide (a = b)) ys xs := by
  induction xs generalizing ys with
  | nil => cases ys <;> rfl
  | cons x xs ih =>
    cases ys with
    | nil => rfl
    | cons y ys =>
      simp only [List.zipWith_cons_cons, ih, List.cons.injEq, and_true]
      exact decide_eq_decide.mpr eq_comm

/-- C1: for every class-bucket subdirectory of the root, the label of
every sample of that bucket is `0` when the substring `"cat"` occurs in
the bucket's directory name and `1` otherwise, and entries of the root
that are not directories contribute no samples: the label sequence is
exactly, bucket by bucket over the directory entries only, one copy of
the bucket's label per non-hidden file. -/
theorem C1_bucket_label_rule {α : Type} (extract : String → α) (folder : String)
    (entries : List Entry) :
    (load_images_and_features extract folder entries).2.1 =
      (entries.filter (fun e => e.isDir)).flatMap
        (fun e =>
          List.replicate (e.files.filter (fun f => !strStartsWith f ".")).length
            (if "cat".data <:+: e.name.data then (0 : ℤ) else 1)) := by
  induction entries with
  | nil => rfl
  | cons e rest ih =>
    cases hd : e.isDir with
    | false => simp [load_images_and_features, hd, List.filter_cons, ih]
    | true =>
      simp [load_images_and_features, hd, List.filter_cons, ih,
        process_directory_spec, catIn]

/-- C2: the triple returned by `load_images_and_features` is aligned:
all three sequences are maps over one and the same enumeration of the
samples (directory order, then listing order within a directory), so the
`i`-th feature, `i`-th label and `i`-th filename all come from the `i`-th
sample, and the three lengths are equal. -/
theorem C2_triple_alignment {α : Type} (extract : String → α) (folder : String)
    (entries : List Entry) :
    ((load_images_and_features extract folder entries).1 =
        (sampleList entries).map (fun s => extract (joinPath (joinPath folder s.1) s.2)) ∧
      (load_images_and_features extract folder entries).2.1 =
        (sampleList entries).map (fun s => bucketLabel s.1) ∧
      (load_images_and_features extract folder entries).2.2 =
        (sampleList entries).map (fun s => s.2)) ∧
    (load_images_and_features extract folder entries).1.length =
      (load_images_and_features extract folder entries).2.1.length ∧
    (load_images_and_features extract folder entries).2.1.length =
      (load_images_and_features extract folder entries).2.2.length := by
  rw [load_spec]
  simp

/-- C3: `map_label` returns `"cat"` exactly on the integer `0` and
`"dog"` exactly on every non-zero integer. -/
theorem C3_map_label_semantics (n : ℤ) :
    (map_label n = "cat" ↔ n = 0) ∧ (map_label n = "dog" ↔ n ≠ 0) := by
  unfold map_label
  by_cases h : n = 0 <;> simp [h]

/-- C9: the result table returned by `evaluate_model` equals the one
returned by `create_results_df` on the same arguments; the two differ
only in `evaluate_model`'s printing (modelled as its second component). -/
theorem C9_evaluate_refines_create {α : Type} (predict : α → ℤ) (X_test : List α)
    (y_test : List ℤ) (test_filenames : List String) :
    (evaluate_model predict X_test y_test test_filenames).1 =
      create_results_df predict X_test y_test test_filenames := rfl

/-- C4: for a non-empty test split (with aligned input lengths), the
accuracy printed by `evaluate_model` is the number of result-table rows
whose prediction equals the actual label, divided by the number of
rows. -/
theorem C4_printed_accuracy {α : Type} (predict : α → ℤ) (X_test : List α)
    (y_test : List ℤ) (test_filenames : List String)
    (hf : test_filenames.length = X_test.length)
    (hx : X_test.length = y_test.length)
    (hne : 0 < y_test.length) :
    (evaluate_model predict X_test y_test test_filenames).2 =
      (((evaluate_model predict X_test y_test test_filenames).1.filter
            (fun r => r.correct)).length : ℚ) /
        ((evaluate_model predict X_test y_test test_filenames).1.length : ℚ) := by
  have hp : (List.map map_label (X_test.map predict)).length = test_filenames.length := by
    simp [hf]
  have ha : (List.map map_label y_test).length = test_filenames.length := by
    simp [hf, hx]
  have hc : (List.zipWith (fun a b => decide (a = b)) (X_test.map predict) y_test).length
      = test_filenames.length := by
    simp [List.length_zipWith, hf, hx]
  have hm := mkRows_spec test_filenames (List.map map_label (X_test.map predict))
    (List.map map_label y_test)
    (List.zipWith (fun a b => decide (a = b)) (X_test.map predict) y_test) hp ha hc
  show accuracy_score y_test (X_test.map predict) =
    ((List.filter (fun r => r.correct) (mkRows test_filenames _ _ _)).length : ℚ) /
      ((mkRows test_filenames _ _ _).length : ℚ)
  rw [accuracy_score, hm.1, hm.2.2, zipWith_decide_eq_comm, count_true_eq_countP,
    hf, hx]

/-- C4 witness: ten synthetic rows of which seven are correct. -/
theorem C4_witness :
    (evaluate_model (fun n : ℤ => n) [0, 1, 0, 1, 0, 1, 0, 1, 0, 1]
        [0, 1, 0, 1, 0, 1, 0, 0, 1, 0]
        ["f0", "f1", "f2", "f3", "f4", "f5", "f6", "f7", "f8", "f9"]).2 =
      (((evaluate_model (fun n : ℤ => n) [0, 1, 0, 1, 0, 1, 0, 1, 0, 1]
            [0, 1, 0, 1, 0, 1, 0, 0, 1, 0]
            ["f0", "f1", "f2", "f3", "f4", "f5", "f6", "f7", "f8", "f9"]).1.filter
            (fun r => r.correct)).length : ℚ) /
        ((evaluate_model (fun n : ℤ => n) [0, 1, 0, 1, 0, 1, 0, 1, 0, 1]
            [0, 1, 0, 1, 0, 1, 0, 0, 1, 0]
            ["f0", "f1", "f2", "f3", "f4", "f5", "f6", "f7", "f8", "f9"]).1.length : ℚ) :=
  C4_printed_accuracy (fun n : ℤ => n) [0, 1, 0, 1, 0, 1, 0, 1, 0, 1]
    [0, 1, 0, 1, 0, 1, 0, 0, 1, 0]
    ["f0", "f1", "f2", "f3", "f4", "f5", "f6", "f7", "f8", "f9"]
    (by decide) (by decide) (by decide)

/-- C5: the exporter writes, at the destination path, exactly the line
`# <comment>` followed by the header `Filename,Prediction,Actual,Correct?`
and one serialized data row per sample in table order (no index column),
replacing whatever was stored there before; every other path is left
unchanged. -/
theorem C5_export_format (df : List Row) (filename header_comment : String)
    (fs : String → Option String) :
    export_to_csv df filename header_comment fs filename =
      some ("# " ++ header_comment ++ "\n" ++
        "Filename,Prediction,Actual,Correct?\n" ++ String.join (df.map rowLine)) ∧
    (df.map rowLine).length = df.length ∧
    ∀ p, p ≠ filename → export_to_csv df filename header_comment fs p = fs p := by
  refine ⟨?_, by simp, fun p hp => ?_⟩
  · have h1 : export_to_csv df filename header_comment fs filename =
        some ("# " ++ header_comment ++ "\n" ++ to_csv df) := by
      simp [export_to_csv]
    rw [h1, to_csv, csvHeader, ← String.append_assoc]
  simp [export_to_csv, hp]

/-- C5 witness: exporting one row over a pre-existing file overwrites it
and leaves another path untouched. -/
theorem C5_witness :
    export_to_csv [⟨"a.jpg", "cat", "dog", false⟩] "linear.csv"
        "Results from linear SVM model" (fun _ => some "old contents") "linear.csv" =
      some ("# Results from linear SVM model\n" ++
        "Filename,Prediction,Actual,Correct?\n" ++
        String.join ([(⟨"a.jpg", "cat", "dog", false⟩ : Row)].map rowLine)) ∧
    export_to_csv [⟨"a.jpg", "cat", "dog", false⟩] "linear.csv"
        "Results from linear SVM model" (fun _ => some "old contents") "rbf.csv" =
      (fun _ => some "old contents") "rbf.csv" :=
  ⟨(C5_export_format [⟨"a.jpg", "cat", "dog", false⟩] "linear.csv"
      "Results from linear SVM model" (fun _ => some "old contents")).1,
    (C5_export_format [⟨"a.jpg", "cat", "dog", false⟩] "linear.csv"
      "Results from linear SVM model" (fun _ => some "old contents")).2.2
      "rbf.csv" (by decide)⟩

/-- C6: a file whose name starts with a dot contributes nothing to the
loader's result: the returned triple over a root containing that file in
some bucket is identical to the triple over the same root with the file
removed, so it yields no feature vector, no label, no filename, and the
extractor is never invoked on it. -/
theorem C6_hidden_files_skipped {α : Type} (extract : String → α)
    (folder name : String) (files1 files2 : List String) (f : String)
    (pre rest : List Entry) (hf : strStartsWith f "." = true) :
    load_images_and_features extract folder
        (pre ++ ⟨name, true, files1 ++ f :: files2⟩ :: rest) =
      load_images_and_features extract folder
        (pre ++ ⟨name, true, files1 ++ files2⟩ :: rest) := by
  rw [load_spec, load_spec]
  have hs : sampleList (pre ++ ⟨name, true, files1 ++ f :: files2⟩ :: rest) =
      sampleList (pre ++ ⟨name, true, files1 ++ files2⟩ :: rest) := by
    simp [sampleList, List.filter_append, List.filter_cons, hf]
  rw [hs]

/-- C6 witness: a `.DS_Store` entry between two images changes nothing. -/
theorem C6_witness :
    load_images_and_features (fun p : String => p) "train"
        ([] ++ (⟨"cats", true, ["a.jpg"] ++ ".DS_Store" :: ["b.jpg"]⟩ : Entry) :: []) =
      load_images_and_features (fun p : String => p) "train"
        ([] ++ (⟨"cats", true, ["a.jpg"] ++ ["b.jpg"]⟩ : Entry) :: []) :=
  C6_hidden_files_skipped (fun p : String => p) "train" "cats" ["a.jpg"] ["b.jpg"]
    ".DS_Store" [] [] (by decide)

/-- C7 counterexample: with a decoder under which no path is readable,
`process_image` at the concrete path `"missing.jpg"` fails with the
`cv2.error` assertion raised by `cvtColor` on the empty decode result,
which is not a dedicated image-decoding error: the error it fails with
is not `DecodeError`. -/
theorem C7_counterexample :
    process_image imreadNone id id (fun _ : Unit => ()) "missing.jpg" =
        Except.error (PyError.cvAssertion "cvtColor" "!_src.empty()") ∧
    process_image imreadNone id id (fun _ : Unit => ()) "missing.jpg" ≠
        Except.error PyError.decodeError := by
  exact ⟨rfl, by simp [process_image, imreadNone]⟩

/-- C7 (amended): for every path that does not refer to a readable image
(the decoder yields nothing), `process_image` does not return a value:
it fails, but with the `cv2.error` assertion `!_src.empty()` raised by
the grayscale conversion on the empty decode result, not with a
dedicated image-decoding error. -/
theorem C7_unreadable_image_error {Image α : Type} (imread : String → Option Image)
    (cvtColor resize : Image → Image) (hogFeat : Image → α) (p : String)
    (h : imread p = none) :
    process_image imread cvtColor resize hogFeat p =
      Except.error (PyError.cvAssertion "cvtColor" "!_src.empty()") := by
  simp [process_image, h]

/-- C7 witness: the amended statement at the all-unreadable decoder and
the path `"missing.jpg"`. -/
theorem C7_witness :
    process_image imreadNone id id (fun _ : Unit => ()) "missing.jpg" =
      Except.error (PyError.cvAssertion "cvtColor" "!_src.empty()") :=
  C7_unreadable_image_error imreadNone id id (fun _ : Unit => ()) "missing.jpg" rfl

/-- C8: the `Correct?` column is the elementwise integer comparison of
the predicted and actual label vectors, not a comparison of the mapped
strings; consequently a row can show the same symbolic `Prediction` and
`Actual` (both `"dog"`) while its `Correct?` entry is `false`, as when
the model predicts `2` and the actual label is `1`. -/
theorem C8_correct_compares_integers :
    (∀ (α : Type) (predict : α → ℤ) (X_test : List α) (y_test : List ℤ)
        (test_filenames : List String),
        test_filenames.length = X_test.length → X_test.length = y_test.length →
        (create_results_df predict X_test y_test test_filenames).map
            (fun r => r.correct) =
          List.zipWith (fun a b => decide (a = b)) (X_test.map predict) y_test) ∧
    (∃ r, r ∈ create_results_df (fun _ : Unit => (2 : ℤ)) [()] [(1 : ℤ)] ["a.jpg"] ∧
        r.prediction = "dog" ∧ r.actual = "dog" ∧ r.prediction = r.actual ∧
        r.correct = false) := by
  constructor
  · intro α predict X_test y_test test_filenames h1 h2
    have hp : (List.map map_label (X_test.map predict)).length
        = test_filenames.length := by simp [h1]
    have ha : (List.map map_label y_test).length = test_filenames.length := by
      simp [h1, h2]
    have hc : (List.zipWith (fun a b => decide (a = b)) (X_test.map predict)
          y_test).length = test_filenames.length := by
      simp [List.length_zipWith, h1, h2]
    exact (mkRows_spec test_filenames _ _ _ hp ha hc).2.1
  · exact ⟨⟨"a.jpg", "dog", "dog", false⟩, by decide, rfl, rfl, rfl, rfl⟩

/-- C8 witness: the column characterization at one concrete row where
prediction `2` and actual `1` both map to `"dog"`. -/
theorem C8_witness :
    (create_results_df (fun _ : Unit => (2 : ℤ)) [()] [(1 : ℤ)] ["a.jpg"]).map
        (fun r => r.correct) =
      List.zipWith (fun a b => decide (a = b)) ([()].map (fun _ : Unit => (2 : ℤ)))
        [(1 : ℤ)] :=
  C8_correct_compares_integers.1 Unit (fun _ => (2 : ℤ)) [()] [(1 : ℤ)] ["a.jpg"]
    rfl rfl

/-- C10: the hidden-name filter applies to files, not to buckets: a
subdirectory of the root whose name starts with a dot is still processed
as a class bucket, in exactly the way any directory entry is, and the
labels of its samples follow the `"cat"`-substring rule (so they are `1`
unless the name contains `"cat"`), one per non-hidden file. -/
theorem C10_dot_named_bucket {α : Type} (extract : String → α)
    (folder name : String) (files : List String) (rest : List Entry)
    (hname : strStartsWith name "." = true) :
    (load_images_and_features extract folder ((⟨name, true, files⟩ : Entry) :: rest) =
      ((process_directory extract (joinPath folder name)
            (if catIn name then 0 else 1) files).1 ++
          (load_images_and_features extract folder rest).1,
        (process_directory extract (joinPath folder name)
            (if catIn name then 0 else 1) files).2.1 ++
          (load_images_and_features extract folder rest).2.1,
        (process_directory extract (joinPath folder name)
            (if catIn name then 0 else 1) files).2.2 ++
          (load_images_and_features extract folder rest).2.2)) ∧
    (load_images_and_features extract folder [(⟨name, true, files⟩ : Entry)]).2.1 =
      List.replicate (files.filter (fun f => !strStartsWith f ".")).length
        (if "cat".data <:+: name.data then (0 : ℤ) else 1) := by
  constructor
  · rfl
  · simp [load_images_and_features, process_directory_spec, catIn]

/-- C10 witness: a bucket directory named `".cats"` whose name starts
with a dot still yields label `0` per the substring rule. -/
theorem C10_witness :
    (load_images_and_features (fun p : String => p) "train"
        [(⟨".cats", true, ["x.jpg"]⟩ : Entry)]).2.1 =
      List.replicate ((["x.jpg"].filter (fun f => !strStartsWith f ".")).length)
        (if "cat".data <:+: ".cats".data then (0 : ℤ) else 1) :=
  (C10_dot_named_bucket (fun p : String => p) "train" ".cats" ["x.jpg"] []
    (by decide)).2

end CatDog
